import Mathlib

/-!
Verification development for the demo meeting server
(src/demos/browser/server.js): an HTTP session router that brokers
CreateMeeting / CreateAttendee / DeleteMeeting calls to a remote
conferencing API and keeps an in-memory map from meeting titles to
remote meeting records.

The embedding below models one request-handling invocation of the
handler passed to http.createServer: the routing on method/pathname,
the query-parameter validation, the meeting-table lookup with JS plain
object semantics (own properties plus the fields inherited from
Object.prototype, since the table is an object literal), the remote
calls issued in order, the table mutation, and the try/catch boundary
that converts any thrown error into a 400 JSON response.
-/

namespace MeetingServer

/-- A remote meeting descriptor, as in the Meeting field of the
response of chime.createMeeting. Only MeetingId is read by the server. -/
structure MeetingInfo where
  MeetingId : String
deriving DecidableEq, Repr

/-- The resolved value of chime.createMeeting(...).promise(): an object
with a Meeting field. This is what the server stores in meetingTable. -/
structure MeetingResponse where
  Meeting : MeetingInfo
deriving DecidableEq, Repr

/-- The resolved value of chime.createAttendee(...).promise(). The server
returns it to the caller without reading any field, so it is kept as an
uninterpreted token. -/
structure AttendeeResponse where
  token : String
deriving DecidableEq, Repr

/-- Arguments of the chime.createMeeting call made in the /join branch. -/
structure CreateMeetingArgs where
  ClientRequestToken : String
  MediaRegion : String
  ExternalMeetingId : String
deriving DecidableEq, Repr

/-- Arguments of the chime.createAttendee call made in the /join branch. -/
structure CreateAttendeeArgs where
  MeetingId : String
  ExternalUserId : String
deriving DecidableEq, Repr

/-- Arguments of the chime.deleteMeeting call made in the /end branch. -/
structure DeleteMeetingArgs where
  MeetingId : String
deriving DecidableEq, Repr

/-- One remote API call issued by the handler, recorded in order. -/
inductive ApiCall where
  | createMeetingCall (args : CreateMeetingArgs)
  | createAttendeeCall (args : CreateAttendeeArgs)
  | deleteMeetingCall (args : DeleteMeetingArgs)
deriving DecidableEq, Repr

/-- A JavaScript exception reaching the catch block: the explicit
validation Error thrown in the /join branch, a TypeError from reading a
property of undefined, or a rejection coming back from the remote API. -/
inductive JsError where
  | validation
  | undefinedReadinedAccess (prop : String)
  | remote (msg : String)
deriving DecidableEq, Repr

/-- The err.message string used by the catch block when building the
400 response body. -/
def JsError.message : JsError → String
  | .validation => "Need parameters: title, name, region"
  | .undefinedReadinedAccess p => "Cannot read properties of undefined (reading " ++ p ++ ")"
  | .remote m => m

/-- Response body, structured as the server builds it: a raw page or
text body, the JSON.stringify of the JoinInfo object, the empty JSON
object of /end, the error object of the catch block, or the debug
helper output. -/
inductive Body where
  | html (content : String)
  | joinInfo (meeting : MeetingResponse) (attendee : AttendeeResponse)
  | emptyObj
  | errorObj (message : String)
  | debugBody (content : String)
deriving DecidableEq, Repr

/-- The response written by the respond helper: status code, the
Content-Type header, and the body passed to response.end. -/
structure HttpResponse where
  status : Nat
  contentType : String
  body : Body
deriving DecidableEq, Repr

/-- The three query parameters the server reads from
url.parse(request.url, true).query. A parameter absent from the query
string is none; a parameter present with an empty value is some "". -/
structure QueryParams where
  title : Option String
  name : Option String
  region : Option String
deriving DecidableEq, Repr

/-- One incoming HTTP request, reduced to the fields the handler reads. -/
structure Request where
  method : String
  pathname : String
  query : QueryParams
deriving DecidableEq, Repr

/-- The own properties of the meetingTable object literal, in insertion
order. Values are the stored createMeeting responses. -/
abbrev Table := List (String × MeetingResponse)

/-- JS truthiness of a query-parameter string: undefined and the empty
string are falsy, every other string is truthy. -/
def jsFalsy : Option String → Bool
  | none => true
  | some s => s = ""

/-- The string a parameter value coerces to when used as a value
(template literal or argument). An absent parameter is undefined; it is
never used as a value on the paths where it can be absent, so the
default is irrelevant there. -/
def jsStr : Option String → String
  | none => ""
  | some s => s

/-- The property key a parameter value coerces to in
meetingTable[value]: undefined stringifies to "undefined". -/
def jsKeyOf : Option String → String
  | none => "undefined"
  | some s => s

/-- Property names inherited by every plain object literal from
Object.prototype. Reading one of them from meetingTable yields a truthy
value (a function, or Object.prototype itself for the last entry) even
when no meeting was stored under that title. -/
def objectPrototypeKeys : List String :=
  ["constructor", "hasOwnProperty", "isPrototypeOf", "propertyIsEnumerable",
   "toLocaleString", "toString", "valueOf", "__defineGetter__",
   "__defineSetter__", "__lookupGetter__", "__lookupSetter__", "__proto__"]

/-- Look up an own property of the table. -/
def lookupOwn : Table → String → Option MeetingResponse
  | [], _ => none
  | (k, v) :: rest, key => if k = key then some v else lookupOwn rest key

/-- Result of the property read meetingTable[key]: a stored meeting
record (own property), a truthy non-record value inherited from
Object.prototype, or undefined. -/
inductive LookupResult where
  | record (m : MeetingResponse)
  | protoValue
  | undefinedRead
deriving DecidableEq, Repr

/-- The full JS semantics of reading meetingTable[key] on a plain
object literal: own properties shadow the prototype; otherwise a key
that names an Object.prototype member yields that inherited truthy
value; otherwise undefined. -/
def jsLookup (tbl : Table) (key : String) : LookupResult :=
  match lookupOwn tbl key with
  | some m => .record m
  | none => if key ∈ objectPrototypeKeys then .protoValue else .undefinedRead

/-- The assignment meetingTable[key] = v: overwrite the own property if
present, otherwise append it. (The handler only assigns when the read
was falsy, so the overwrite branch and the special behaviour of an
assignment to the __proto__ key are unreachable: __proto__ reads back
truthy.) -/
def jsAssign : Table → String → MeetingResponse → Table
  | [], key, v => [(key, v)]
  | (k, w) :: rest, key, v =>
      if k = key then (key, v) :: rest else (k, w) :: jsAssign rest key v

/-- The process environment and external collaborators of one handler
invocation: the DEBUG flag, the preloaded index page, the uuid()
generator (indexed by call order within the request), the three remote
API operations (each resolving with a value or rejecting with an
error), and the external debug helper. -/
structure Env where
  debugFlag : Bool
  indexPage : String
  uuidGen : Nat → String
  chimeCreateMeeting : CreateMeetingArgs → Except JsError MeetingResponse
  chimeCreateAttendee : CreateAttendeeArgs → Except JsError AttendeeResponse
  chimeDeleteMeeting : DeleteMeetingArgs → Except JsError Unit
  debugHandler : QueryParams → Except JsError String

/-- Result of running the try block: the response it produced or the
error it threw, together with the table as mutated so far and the
remote calls issued so far (both survive a throw). -/
structure RouteResult where
  outcome : Except JsError HttpResponse
  table : Table
  calls : List ApiCall
deriving Repr

/-- The POST /join branch (lines 94-136 of server.js): validate the
three parameters, create and store the meeting if the table read is
falsy, re-read the table, create the attendee, respond 201 with the
JoinInfo object. Any throw carries the mutation and calls made before
it. -/
def joinRoute (env : Env) (q : QueryParams) (tbl : Table) : RouteResult :=
  if jsFalsy q.title || jsFalsy q.name || jsFalsy q.region then
    ⟨.error .validation, tbl, []⟩
  else
    let titleKey := jsKeyOf q.title
    let afterCreate : Except JsError (Table × List ApiCall × Nat) :=
      match jsLookup tbl titleKey with
      | .record _ => .ok (tbl, [], 0)
      | .protoValue => .ok (tbl, [], 0)
      | .undefinedRead =>
          let args : CreateMeetingArgs :=
            ⟨env.uuidGen 0, jsStr q.region, (jsStr q.title).take 64⟩
          match env.chimeCreateMeeting args with
          | .error e => .error e
          | .ok m => .ok (jsAssign tbl titleKey m, [.createMeetingCall args], 1)
    match afterCreate with
    | .error e =>
        ⟨.error e, tbl,
         [.createMeetingCall ⟨env.uuidGen 0, jsStr q.region, (jsStr q.title).take 64⟩]⟩
    | .ok (tbl2, calls, uuidIdx) =>
        match jsLookup tbl2 titleKey with
        | .record meeting =>
            let attArgs : CreateAttendeeArgs :=
              ⟨meeting.Meeting.MeetingId,
               ((env.uuidGen uuidIdx).take 8 ++ "#" ++ jsStr q.name).take 64⟩
            match env.chimeCreateAttendee attArgs with
            | .error e => ⟨.error e, tbl2, calls ++ [.createAttendeeCall attArgs]⟩
            | .ok attendee =>
                ⟨.ok ⟨201, "application/json", .joinInfo meeting attendee⟩,
                 tbl2, calls ++ [.createAttendeeCall attArgs]⟩
        | .protoValue => ⟨.error (.undefinedReadinedAccess "MeetingId"), tbl2, calls⟩
        | .undefinedRead => ⟨.error (.undefinedReadinedAccess "Meeting"), tbl2, calls⟩

/-- The POST /end branch (lines 137-142 of server.js): read
meetingTable[query.title], dereference .Meeting.MeetingId, call
deleteMeeting, respond 200 with an empty JSON object. A falsy or
inherited read makes the dereference throw a TypeError. -/
def endRoute (env : Env) (q : QueryParams) (tbl : Table) : RouteResult :=
  match jsLookup tbl (jsKeyOf q.title) with
  | .record m =>
      let args : DeleteMeetingArgs := ⟨m.Meeting.MeetingId⟩
      match env.chimeDeleteMeeting args with
      | .error e => ⟨.error e, tbl, [.deleteMeetingCall args]⟩
      | .ok _ => ⟨.ok ⟨200, "application/json", .emptyObj⟩, tbl, [.deleteMeetingCall args]⟩
  | .protoValue => ⟨.error (.undefinedReadinedAccess "MeetingId"), tbl, []⟩
  | .undefinedRead => ⟨.error (.undefinedReadinedAccess "Meeting"), tbl, []⟩

/-- The try block of the handler (lines 82-146 of server.js): route on
method and pathname to one of index page, debug join, join, end, or the
404 fallback. -/
def route (env : Env) (req : Request) (tbl : Table) : RouteResult :=
  if req.method = "GET" ∧ req.pathname = "/" then
    ⟨.ok ⟨200, "text/html", .html env.indexPage⟩, tbl, []⟩
  else if env.debugFlag ∧ req.method = "POST" ∧ req.pathname = "/join" then
    match env.debugHandler req.query with
    | .error e => ⟨.error e, tbl, []⟩
    | .ok d => ⟨.ok ⟨201, "application/json", .debugBody d⟩, tbl, []⟩
  else if req.method = "POST" ∧ req.pathname = "/join" then
    joinRoute env req.query tbl
  else if req.method = "POST" ∧ req.pathname = "/end" then
    endRoute env req.query tbl
  else
    ⟨.ok ⟨404, "text/html", .html "404 Not Found"⟩, tbl, []⟩

/-- Result of one full handler invocation: the single response written,
the table afterwards, and the remote calls issued. -/
structure HandlerResult where
  response : HttpResponse
  table : Table
  calls : List ApiCall
deriving Repr

/-- One invocation of the http.createServer handler: run the try block;
the catch block (lines 147-150) converts any thrown error into a 400
response whose JSON body carries err.message. -/
def handleRequest (env : Env) (req : Request) (tbl : Table) : HandlerResult :=
  let r := route env req tbl
  match r.outcome with
  | .ok resp => ⟨resp, r.table, r.calls⟩
  | .error e => ⟨⟨400, "application/json", .errorObj e.message⟩, r.table, r.calls⟩

/-! Concrete sample environment used to exercise the handler on
explicit inputs: uuid calls return fixed strings, every remote call
succeeds, and the attendee token echoes the external user id. -/

/-- A concrete meeting record returned by the sample createMeeting. -/
def sampleMeeting : MeetingResponse := ⟨⟨"mid-1"⟩⟩

/-- A fully concrete environment: DEBUG off, deterministic uuid supply,
remote API that always resolves. -/
def sampleEnv : Env where
  debugFlag := false
  indexPage := "index"
  uuidGen := fun n => if n = 0 then "aaaaaaaa-uuid" else "bbbbbbbb-uuid"
  chimeCreateMeeting := fun _ => .ok sampleMeeting
  chimeCreateAttendee := fun a => .ok ⟨a.ExternalUserId⟩
  chimeDeleteMeeting := fun _ => .ok ()
  debugHandler := fun _ => .ok "debug"

/-! Helper lemmas about the table and the route structure. -/

/-- Reading back the key just assigned yields the assigned record. -/
theorem lookupOwn_jsAssign_self (tbl : Table) (key : String) (v : MeetingResponse) :
    lookupOwn (jsAssign tbl key v) key = some v := by
  induction tbl with
  | nil => simp [jsAssign, lookupOwn]
  | cons kv rest ih =>
      obtain ⟨k, w⟩ := kv
      by_cases hk : k = key
      · simp [jsAssign, hk, lookupOwn]
      · simp [jsAssign, hk, lookupOwn, ih]

/-- The handler returns the table produced by the try block whether or
not the block threw. -/
theorem handleRequest_table (env : Env) (req : Request) (tbl : Table) :
    (handleRequest env req tbl).table = (route env req tbl).table := by
  cases hout : (route env req tbl).outcome <;> simp [handleRequest, hout]

/-- The handler returns the call log produced by the try block whether
or not the block threw. -/
theorem handleRequest_calls (env : Env) (req : Request) (tbl : Table) :
    (handleRequest env req tbl).calls = (route env req tbl).calls := by
  cases hout : (route env req tbl).outcome <;> simp [handleRequest, hout]

/-- The /end branch never writes to the meeting table. -/
theorem endRoute_table (env : Env) (q : QueryParams) (tbl : Table) :
    (endRoute env q tbl).table = tbl := by
  unfold endRoute
  dsimp only
  split
  · split <;> rfl
  · rfl
  · rfl

/-- A response produced by the /join branch without a throw has status
201. -/
theorem joinRoute_ok_status (env : Env) (q : QueryParams) (tbl : Table)
    (resp : HttpResponse) (h : (joinRoute env q tbl).outcome = .ok resp) :
    resp.status = 201 := by
  unfold joinRoute at h
  dsimp only at h
  repeat' split at h
  all_goals first
    | (cases h; rfl)
    | simp_all

/-- A response produced by the /end branch without a throw has status
200. -/
theorem endRoute_ok_status (env : Env) (q : QueryParams) (tbl : Table)
    (resp : HttpResponse) (h : (endRoute env q tbl).outcome = .ok resp) :
    resp.status = 200 := by
  unfold endRoute at h
  dsimp only at h
  repeat' split at h
  all_goals first
    | (cases h; rfl)
    | simp_all

/-- A response produced by the try block without a throw has status
200, 201 or 404 (index page, join or debug join, end, or the 404
fallback). -/
theorem route_ok_status (env : Env) (req : Request) (tbl : Table)
    (resp : HttpResponse) (h : (route env req tbl).outcome = .ok resp) :
    resp.status = 200 ∨ resp.status = 201 ∨ resp.status = 404 := by
  unfold route at h
  split at h
  · left; cases (by simpa using h : _ = resp); rfl
  · split at h
    · split at h
      · simp_all
      · right; left; cases (by simpa using h : _ = resp); rfl
    · split at h
      · right; left; exact joinRoute_ok_status env req.query tbl resp h
      · split at h
        · left; exact endRoute_ok_status env req.query tbl resp h
        · right; right; cases (by simpa using h : _ = resp); rfl

deriving instance DecidableEq for Except

/-! Claim theorems. -/

/-- C1 counterexample: with title toString, name bob, region us-east-1
all present, an empty table (so the title has no entry in the meeting
map), and a remote API that always succeeds, the handler issues no
remote call at all and responds 400, not 201: the inherited
Object.prototype member makes the presence check truthy. -/
theorem c1_counterexample :
    lookupOwn [] "toString" = none ∧
    (handleRequest sampleEnv ⟨"POST", "/join", ⟨some "toString", some "bob", some "us-east-1"⟩⟩ []).calls = [] ∧
    (handleRequest sampleEnv ⟨"POST", "/join", ⟨some "toString", some "bob", some "us-east-1"⟩⟩ []).response.status = 400 ∧
    ¬ (handleRequest sampleEnv ⟨"POST", "/join", ⟨some "toString", some "bob", some "us-east-1"⟩⟩ []).response.status = 201 := by
  decide

/-- C1 (amended): a Join with nonempty title, name and region, whose
title reads back undefined from the meeting table (no own entry and not
an Object.prototype member name), with DEBUG off and both remote calls
succeeding, issues exactly one CreateMeeting call then exactly one
CreateAttendee call, stores the CreateMeeting result under the title,
and responds 201 with the JoinInfo body holding the meeting and the
attendee. -/
theorem c1_first_join (env : Env) (t n r : String) (tbl : Table)
    (m : MeetingResponse) (a : AttendeeResponse)
    (hdbg : env.debugFlag = false)
    (ht : t ≠ "") (hn : n ≠ "") (hr : r ≠ "")
    (hfresh : jsLookup tbl t = .undefinedRead)
    (hcm : env.chimeCreateMeeting ⟨env.uuidGen 0, r, t.take 64⟩ = .ok m)
    (hca : env.chimeCreateAttendee
        ⟨m.Meeting.MeetingId, ((env.uuidGen 1).take 8 ++ "#" ++ n).take 64⟩ = .ok a) :
    handleRequest env ⟨"POST", "/join", ⟨some t, some n, some r⟩⟩ tbl =
      ⟨⟨201, "application/json", .joinInfo m a⟩,
       jsAssign tbl t m,
       [.createMeetingCall ⟨env.uuidGen 0, r, t.take 64⟩,
        .createAttendeeCall ⟨m.Meeting.MeetingId, ((env.uuidGen 1).take 8 ++ "#" ++ n).take 64⟩]⟩ ∧
    lookupOwn (jsAssign tbl t m) t = some m := by
  have hlook2 : jsLookup (jsAssign tbl t m) t = .record m := by
    simp [jsLookup, lookupOwn_jsAssign_self]
  refine ⟨?_, lookupOwn_jsAssign_self tbl t m⟩
  simp [handleRequest, route, joinRoute, hdbg, jsFalsy, jsStr, jsKeyOf,
    ht, hn, hr, hfresh, hcm, hlook2, hca]

set_option maxRecDepth 8000 in
/-- C1 witness: the amended theorem applied to a fully concrete first
join in the sample environment. -/
theorem c1_first_join_witness :
    handleRequest sampleEnv ⟨"POST", "/join", ⟨some "t1", some "bob", some "us-east-1"⟩⟩ [] =
      ⟨⟨201, "application/json", .joinInfo sampleMeeting ⟨"bbbbbbbb#bob"⟩⟩,
       [("t1", sampleMeeting)],
       [.createMeetingCall ⟨"aaaaaaaa-uuid", "us-east-1", "t1"⟩,
        .createAttendeeCall ⟨"mid-1", "bbbbbbbb#bob"⟩]⟩ ∧
    lookupOwn [("t1", sampleMeeting)] "t1" = some sampleMeeting := by
  exact c1_first_join sampleEnv "t1" "bob" "us-east-1" [] sampleMeeting ⟨"bbbbbbbb#bob"⟩
    rfl (by decide) (by decide) (by decide) (by decide) rfl rfl

/-- C2 counterexample: a Join whose title t1 already has an entry in
the table but whose name parameter is the empty string responds 400
with no CreateAttendee call at all, because validation precedes the
lookup: the claim does not hold for every value of the name
parameter. -/
theorem c2_counterexample :
    lookupOwn [("t1", sampleMeeting)] "t1" = some sampleMeeting ∧
    (handleRequest sampleEnv ⟨"POST", "/join", ⟨some "t1", some "", some "us-east-1"⟩⟩ [("t1", sampleMeeting)]).calls = [] ∧
    (handleRequest sampleEnv ⟨"POST", "/join", ⟨some "t1", some "", some "us-east-1"⟩⟩ [("t1", sampleMeeting)]).response.status = 400 ∧
    ¬ (handleRequest sampleEnv ⟨"POST", "/join", ⟨some "t1", some "", some "us-east-1"⟩⟩ [("t1", sampleMeeting)]).response.status = 201 := by
  decide

/-- C2 (amended): a Join whose title has a stored entry, with nonempty
name and region and DEBUG off, issues no CreateMeeting call, leaves the
table exactly as it was, issues exactly one CreateAttendee call against
the stored meeting identifier, and responds 201; the value of the
nonempty name only flows into the attendee external user id, so reuse
is independent of it. -/
theorem c2_rejoin (env : Env) (t n r : String) (tbl : Table)
    (m : MeetingResponse) (a : AttendeeResponse)
    (hdbg : env.debugFlag = false)
    (ht : t ≠ "") (hn : n ≠ "") (hr : r ≠ "")
    (hown : lookupOwn tbl t = some m)
    (hca : env.chimeCreateAttendee
        ⟨m.Meeting.MeetingId, ((env.uuidGen 0).take 8 ++ "#" ++ n).take 64⟩ = .ok a) :
    handleRequest env ⟨"POST", "/join", ⟨some t, some n, some r⟩⟩ tbl =
      ⟨⟨201, "application/json", .joinInfo m a⟩, tbl,
       [.createAttendeeCall ⟨m.Meeting.MeetingId, ((env.uuidGen 0).take 8 ++ "#" ++ n).take 64⟩]⟩ := by
  have hlook : jsLookup tbl t = .record m := by simp [jsLookup, hown]
  simp [handleRequest, route, joinRoute, hdbg, jsFalsy, jsStr, jsKeyOf,
    ht, hn, hr, hlook, hca]

set_option maxRecDepth 8000 in
/-- C2 witness: the amended theorem applied to a concrete second join
with a different name against a stored meeting. -/
theorem c2_rejoin_witness :
    handleRequest sampleEnv ⟨"POST", "/join", ⟨some "t1", some "carol", some "eu-west-1"⟩⟩ [("t1", sampleMeeting)] =
      ⟨⟨201, "application/json", .joinInfo sampleMeeting ⟨"aaaaaaaa#carol"⟩⟩,
       [("t1", sampleMeeting)],
       [.createAttendeeCall ⟨"mid-1", "aaaaaaaa#carol"⟩]⟩ := by
  exact c2_rejoin sampleEnv "t1" "carol" "eu-west-1" [("t1", sampleMeeting)]
    sampleMeeting ⟨"aaaaaaaa#carol"⟩
    rfl (by decide) (by decide) (by decide) (by decide) rfl

/-- C3: an End request for a title with no entry in the meeting table
makes the try block throw an undefined-dereference TypeError (a
null-dereference-class failure), not a deliberate clean response; the
request then surfaces as the catch-all 400 carrying that exception
message, with no remote call issued and the table untouched. -/
theorem c3_end_unjoined (env : Env) (q : QueryParams) (tbl : Table)
    (hnone : lookupOwn tbl (jsKeyOf q.title) = none) :
    ∃ p, (route env ⟨"POST", "/end", q⟩ tbl).outcome = .error (.undefinedReadinedAccess p) ∧
      handleRequest env ⟨"POST", "/end", q⟩ tbl =
        ⟨⟨400, "application/json", .errorObj (JsError.undefinedReadinedAccess p).message⟩, tbl, []⟩ := by
  by_cases hk : jsKeyOf q.title ∈ objectPrototypeKeys
  · refine ⟨"MeetingId", ?_, ?_⟩ <;>
      simp [handleRequest, route, endRoute, jsLookup, hnone, hk]
  · refine ⟨"Meeting", ?_, ?_⟩ <;>
      simp [handleRequest, route, endRoute, jsLookup, hnone, hk]

/-- C3 witness: the theorem applied to a concrete End for a title never
joined, on an empty table. -/
theorem c3_end_unjoined_witness :
    ∃ p, (route sampleEnv ⟨"POST", "/end", ⟨some "ghost", none, none⟩⟩ []).outcome =
        .error (.undefinedReadinedAccess p) ∧
      handleRequest sampleEnv ⟨"POST", "/end", ⟨some "ghost", none, none⟩⟩ [] =
        ⟨⟨400, "application/json", .errorObj (JsError.undefinedReadinedAccess p).message⟩, [], []⟩ :=
  c3_end_unjoined sampleEnv ⟨some "ghost", none, none⟩ [] (by decide)

/-- C4: every handler invocation yields exactly one response, with
status among 200, 201, 400 and 404; whenever the try block throws, the
catch block turns the exception into the 400 response whose JSON body
is the error object carrying the exception message, and whenever it
does not throw the response is the one the matched branch built — no
error escapes the handler. -/
theorem c4_catch_all (env : Env) (req : Request) (tbl : Table) :
    ((handleRequest env req tbl).response.status = 200 ∨
     (handleRequest env req tbl).response.status = 201 ∨
     (handleRequest env req tbl).response.status = 400 ∨
     (handleRequest env req tbl).response.status = 404) ∧
    (∀ e, (route env req tbl).outcome = .error e →
      (handleRequest env req tbl).response =
        ⟨400, "application/json", .errorObj e.message⟩) ∧
    (∀ resp, (route env req tbl).outcome = .ok resp →
      (handleRequest env req tbl).response = resp) := by
  refine ⟨?_, ?_, ?_⟩
  · cases hout : (route env req tbl).outcome with
    | error e =>
        right; right; left
        simp [handleRequest, hout]
    | ok resp =>
        have hst := route_ok_status env req tbl resp hout
        have hr : (handleRequest env req tbl).response = resp := by
          simp [handleRequest, hout]
        rw [hr]
        tauto
  · intro e he
    simp [handleRequest, he]
  · intro resp hok
    simp [handleRequest, hok]

/-- C4 witness: the error half of the theorem applied to a concrete
request whose try block throws the validation error. -/
theorem c4_catch_all_witness :
    (handleRequest sampleEnv ⟨"POST", "/join", ⟨some "t1", none, none⟩⟩ []).response =
      ⟨400, "application/json", .errorObj JsError.validation.message⟩ :=
  (c4_catch_all sampleEnv ⟨"POST", "/join", ⟨some "t1", none, none⟩⟩ []).2.1
    .validation (by decide)

/-- C5: a Join request missing any of the three query parameters
responds 400 with the validation error message in the JSON error body,
issues no remote call, and leaves the table unchanged. -/
theorem c5_missing_params (env : Env) (req : Request) (tbl : Table)
    (hdbg : env.debugFlag = false)
    (hm : req.method = "POST") (hp : req.pathname = "/join")
    (hmiss : req.query.title = none ∨ req.query.name = none ∨ req.query.region = none) :
    handleRequest env req tbl =
      ⟨⟨400, "application/json", .errorObj JsError.validation.message⟩, tbl, []⟩ := by
  have hfal : (jsFalsy req.query.title || jsFalsy req.query.name || jsFalsy req.query.region) = true := by
    rcases hmiss with h | h | h <;> simp [h, jsFalsy]
  obtain ⟨mth, pth, q⟩ := req
  simp only at hm hp
  subst hm
  subst hp
  simp only at hfal
  simp [handleRequest, route, joinRoute, hdbg, hfal]

/-- C5 witness: the theorem applied to a concrete Join with the title
parameter absent. -/
theorem c5_missing_params_witness :
    handleRequest sampleEnv ⟨"POST", "/join", ⟨none, some "bob", some "us-east-1"⟩⟩ [] =
      ⟨⟨400, "application/json", .errorObj JsError.validation.message⟩, [], []⟩ :=
  c5_missing_params sampleEnv ⟨"POST", "/join", ⟨none, some "bob", some "us-east-1"⟩⟩ []
    rfl rfl rfl (Or.inl rfl)

/-- C6: an End request never removes or rewrites anything in the
meeting table: the table after the request is exactly the table before
it, and in particular the entry under the requested title is
unchanged. -/
theorem c6_end_preserves_table (env : Env) (req : Request) (tbl : Table)
    (hm : req.method = "POST") (hp : req.pathname = "/end") :
    (handleRequest env req tbl).table = tbl ∧
    lookupOwn (handleRequest env req tbl).table (jsKeyOf req.query.title) =
      lookupOwn tbl (jsKeyOf req.query.title) := by
  have htab : (handleRequest env req tbl).table = tbl := by
    rw [handleRequest_table]
    obtain ⟨mth, pth, q⟩ := req
    simp only at hm hp
    subst hm
    subst hp
    simp [route, endRoute_table]
  exact ⟨htab, by rw [htab]⟩

/-- C6 witness: the theorem applied to a concrete successful End for a
stored title. -/
theorem c6_end_preserves_table_witness :
    (handleRequest sampleEnv ⟨"POST", "/end", ⟨some "t1", none, none⟩⟩ [("t1", sampleMeeting)]).table =
      [("t1", sampleMeeting)] ∧
    lookupOwn (handleRequest sampleEnv ⟨"POST", "/end", ⟨some "t1", none, none⟩⟩ [("t1", sampleMeeting)]).table
        (jsKeyOf (some "t1")) =
      lookupOwn [("t1", sampleMeeting)] (jsKeyOf (some "t1")) :=
  c6_end_preserves_table sampleEnv ⟨"POST", "/end", ⟨some "t1", none, none⟩⟩
    [("t1", sampleMeeting)] rfl rfl

/-- C8: a request matching none of GET /, POST /join, POST /end gets
the 404 text response, with the table unchanged and no remote call
issued. -/
theorem c8_not_found (env : Env) (req : Request) (tbl : Table)
    (h1 : ¬(req.method = "GET" ∧ req.pathname = "/"))
    (h2 : ¬(req.method = "POST" ∧ req.pathname = "/join"))
    (h3 : ¬(req.method = "POST" ∧ req.pathname = "/end")) :
    handleRequest env req tbl =
      ⟨⟨404, "text/html", .html "404 Not Found"⟩, tbl, []⟩ := by
  have h2d : ¬(env.debugFlag = true ∧ req.method = "POST" ∧ req.pathname = "/join") :=
    fun h => h2 h.2
  have hroute : route env req tbl =
      ⟨.ok ⟨404, "text/html", .html "404 Not Found"⟩, tbl, []⟩ := by
    unfold route
    rw [if_neg h1, if_neg h2d, if_neg h2, if_neg h3]
  simp [handleRequest, hroute]

/-- C8 witness: the theorem applied to a concrete GET on an undefined
path. -/
theorem c8_not_found_witness :
    handleRequest sampleEnv ⟨"GET", "/nope", ⟨none, none, none⟩⟩ [] =
      ⟨⟨404, "text/html", .html "404 Not Found"⟩, [], []⟩ :=
  c8_not_found sampleEnv ⟨"GET", "/nope", ⟨none, none, none⟩⟩ []
    (by simp) (by simp) (by simp)

/-- C9: a first Join whose nonempty title is an inherited
Object.prototype property name, with no own entry in the table, finds
the presence check truthy: no remote call at all is issued (neither
CreateMeeting nor CreateAttendee), the response is the catch-all 400
carrying the TypeError message from the failed dereference, and the
table is unchanged. -/
theorem c9_proto_title (env : Env) (t n r : String) (tbl : Table)
    (hdbg : env.debugFlag = false)
    (hproto : t ∈ objectPrototypeKeys)
    (hown : lookupOwn tbl t = none)
    (hn : n ≠ "") (hr : r ≠ "") :
    (handleRequest env ⟨"POST", "/join", ⟨some t, some n, some r⟩⟩ tbl).calls = [] ∧
    (handleRequest env ⟨"POST", "/join", ⟨some t, some n, some r⟩⟩ tbl).response =
      ⟨400, "application/json", .errorObj (JsError.undefinedReadinedAccess "MeetingId").message⟩ ∧
    (handleRequest env ⟨"POST", "/join", ⟨some t, some n, some r⟩⟩ tbl).table = tbl := by
  have ht : t ≠ "" := by
    rintro rfl
    exact absurd hproto (by decide)
  have hlook : jsLookup tbl t = .protoValue := by simp [jsLookup, hown, hproto]
  refine ⟨?_, ?_, ?_⟩ <;>
    simp [handleRequest, route, joinRoute, hdbg, jsFalsy, jsStr, jsKeyOf, ht, hn, hr, hlook]

/-- C9 witness: the theorem applied to a concrete first Join with title
toString on an empty table. -/
theorem c9_proto_title_witness :
    (handleRequest sampleEnv ⟨"POST", "/join", ⟨some "toString", some "bob", some "us-east-1"⟩⟩ []).calls = [] ∧
    (handleRequest sampleEnv ⟨"POST", "/join", ⟨some "toString", some "bob", some "us-east-1"⟩⟩ []).response =
      ⟨400, "application/json", .errorObj (JsError.undefinedReadinedAccess "MeetingId").message⟩ ∧
    (handleRequest sampleEnv ⟨"POST", "/join", ⟨some "toString", some "bob", some "us-east-1"⟩⟩ []).table = [] :=
  c9_proto_title sampleEnv "toString" "bob" "us-east-1" []
    rfl (by decide) rfl (by decide) (by decide)

/-- C10: a Join whose title, name or region parameter is present but
equal to the empty string is rejected exactly like an absent one: the
response is 400 with the validation error message, no remote call is
issued, and the table is unchanged. -/
theorem c10_empty_params (env : Env) (t n r : String) (tbl : Table)
    (hdbg : env.debugFlag = false)
    (hempty : t = "" ∨ n = "" ∨ r = "") :
    handleRequest env ⟨"POST", "/join", ⟨some t, some n, some r⟩⟩ tbl =
      ⟨⟨400, "application/json", .errorObj JsError.validation.message⟩, tbl, []⟩ := by
  have hfal : (jsFalsy (some t) || jsFalsy (some n) || jsFalsy (some r)) = true := by
    rcases hempty with rfl | rfl | rfl <;> simp [jsFalsy]
  simp [handleRequest, route, joinRoute, hdbg, hfal]

/-- C10 witness: the theorem applied to a concrete Join whose region
parameter is present but empty. -/
theorem c10_empty_params_witness :
    handleRequest sampleEnv ⟨"POST", "/join", ⟨some "t1", some "bob", some ""⟩⟩ [] =
      ⟨⟨400, "application/json", .errorObj JsError.validation.message⟩, [], []⟩ :=
  c10_empty_params sampleEnv "t1" "bob" "" [] rfl (Or.inr (Or.inr rfl))

set_option maxRecDepth 8000 in
/-- C7 counterexample: for a concrete first Join (title t9, name bob)
in the sample environment, the ExternalUserId actually passed to
CreateAttendee contains a hash separator between the 8-character uuid
prefix and the name, so it differs from the plain concatenation of the
8-character prefix and the name that the claim describes. -/
theorem c7_counterexample :
    (handleRequest sampleEnv ⟨"POST", "/join", ⟨some "t9", some "bob", some "us-east-1"⟩⟩ []).calls =
      [.createMeetingCall ⟨"aaaaaaaa-uuid", "us-east-1", "t9"⟩,
       .createAttendeeCall ⟨"mid-1", "bbbbbbbb#bob"⟩] ∧
    ¬ ("bbbbbbbb#bob" = (("bbbbbbbb-uuid").take 8 ++ "bob").take 64) := by
  constructor
  · decide
  · decide

set_option maxRecDepth 4000 in
set_option maxHeartbeats 1000000 in
/-- C7 (amended): every remote call a Join with nonempty parameters
issues carries the claimed identifiers up to the hash separator: a
CreateMeeting call always has ExternalMeetingId equal to the title
truncated to 64 characters, and a CreateAttendee call always has
ExternalUserId equal to the first 8 characters of a fresh uuid, a hash
separator, and the name, the whole truncated to 64 characters. -/
theorem c7_external_ids (env : Env) (t n r : String) (tbl : Table)
    (hdbg : env.debugFlag = false)
    (ht : t ≠ "") (hn : n ≠ "") (hr : r ≠ "") :
    ∀ c ∈ (handleRequest env ⟨"POST", "/join", ⟨some t, some n, some r⟩⟩ tbl).calls,
      (∀ args, c = ApiCall.createMeetingCall args → args.ExternalMeetingId = t.take 64) ∧
      (∀ args, c = ApiCall.createAttendeeCall args →
        ∃ k, args.ExternalUserId = ((env.uuidGen k).take 8 ++ "#" ++ n).take 64) := by
  intro c hc
  rw [handleRequest_calls] at hc
  have hroute : route env ⟨"POST", "/join", ⟨some t, some n, some r⟩⟩ tbl =
      joinRoute env ⟨some t, some n, some r⟩ tbl := by
    simp [route, hdbg]
  rw [hroute] at hc
  have hfal : (jsFalsy (some t) || jsFalsy (some n) || jsFalsy (some r)) = false := by
    simp [jsFalsy, ht, hn, hr]
  unfold joinRoute at hc
  dsimp only at hc
  rw [hfal] at hc
  simp only [Bool.false_eq_true, if_false] at hc
  rcases hlk : jsLookup tbl (jsKeyOf (some t)) with m | _ | _
  · rw [hlk] at hc
    dsimp only at hc
    rw [hlk] at hc
    dsimp only at hc
    rcases hca : env.chimeCreateAttendee
        ⟨m.Meeting.MeetingId, ((env.uuidGen 0).take 8 ++ "#" ++ jsStr (some n)).take 64⟩ with e | a
    · rw [hca] at hc
      simp only [List.nil_append, List.mem_singleton] at hc
      subst hc
      refine ⟨fun args0 h0 => (nomatch h0), fun args0 h0 => ?_⟩
      cases h0
      exact ⟨0, by simp [jsStr]⟩
    · rw [hca] at hc
      simp only [List.nil_append, List.mem_singleton] at hc
      subst hc
      refine ⟨fun args0 h0 => (nomatch h0), fun args0 h0 => ?_⟩
      cases h0
      exact ⟨0, by simp [jsStr]⟩
  · rw [hlk] at hc
    dsimp only at hc
    rw [hlk] at hc
    dsimp only at hc
    simp at hc
  · rw [hlk] at hc
    dsimp only at hc
    rcases hcm : env.chimeCreateMeeting
        ⟨env.uuidGen 0, jsStr (some r), (jsStr (some t)).take 64⟩ with e | m
    · rw [hcm] at hc
      dsimp only at hc
      simp only [List.mem_singleton] at hc
      subst hc
      refine ⟨fun args0 h0 => ?_, fun args0 h0 => (nomatch h0)⟩
      cases h0
      simp [jsStr]
    · rw [hcm] at hc
      dsimp only at hc
      have hlk2 : jsLookup (jsAssign tbl (jsKeyOf (some t)) m) (jsKeyOf (some t)) = .record m := by
        simp [jsLookup, lookupOwn_jsAssign_self]
      rw [hlk2] at hc
      dsimp only at hc
      rcases hca : env.chimeCreateAttendee
          ⟨m.Meeting.MeetingId, ((env.uuidGen 1).take 8 ++ "#" ++ jsStr (some n)).take 64⟩ with e | a
      · rw [hca] at hc
        simp only [List.cons_append, List.nil_append, List.mem_cons,
          List.not_mem_nil, or_false] at hc
        rcases hc with rfl | rfl
        · refine ⟨fun args0 h0 => ?_, fun args0 h0 => (nomatch h0)⟩
          cases h0
          simp [jsStr]
        · refine ⟨fun args0 h0 => (nomatch h0), fun args0 h0 => ?_⟩
          cases h0
          exact ⟨1, by simp [jsStr]⟩
      · rw [hca] at hc
        simp only [List.cons_append, List.nil_append, List.mem_cons,
          List.not_mem_nil, or_false] at hc
        rcases hc with rfl | rfl
        · refine ⟨fun args0 h0 => ?_, fun args0 h0 => (nomatch h0)⟩
          cases h0
          simp [jsStr]
        · refine ⟨fun args0 h0 => (nomatch h0), fun args0 h0 => ?_⟩
          cases h0
          exact ⟨1, by simp [jsStr]⟩


set_option maxRecDepth 8000 in
/-- C7 witness: the amended theorem applied to the two calls of a
concrete first join in the sample environment. -/
theorem c7_external_ids_witness :
    (("t9" : String) = "t9".take 64) ∧
    ∃ k, ("bbbbbbbb#bob" : String) = ((sampleEnv.uuidGen k).take 8 ++ "#" ++ "bob").take 64 :=
  ⟨((c7_external_ids sampleEnv "t9" "bob" "us-east-1" [] rfl (by decide) (by decide) (by decide))
      (ApiCall.createMeetingCall ⟨"aaaaaaaa-uuid", "us-east-1", "t9"⟩) (by decide)).1
      ⟨"aaaaaaaa-uuid", "us-east-1", "t9"⟩ rfl,
   ((c7_external_ids sampleEnv "t9" "bob" "us-east-1" [] rfl (by decide) (by decide) (by decide))
      (ApiCall.createAttendeeCall ⟨"mid-1", "bbbbbbbb#bob"⟩) (by decide)).2
      ⟨"mid-1", "bbbbbbbb#bob"⟩ rfl⟩

end MeetingServer
